import Mathlib

/-!
Shallow embedding of `src/python/aml/transaction_monitor.py` (the
transaction-monitoring and alerting engine of cryptobeam-compliance).

Modelling conventions:
* monetary amounts are exact integers counted in cents (hundredths of the
  stated currency unit), so the Python literal `10000` (dollars) is
  `dollars 10000 = 1000000` cents and `9999.99` is `999999` cents; the
  spec (§7) requires exact decimal arithmetic for amounts, and two decimal
  places cover every threshold and test value of the module.  Python's
  `amount % 1000 == 0` on a non-negative decimal amount is divisibility of
  the cent count by `dollars 1000`.
* timestamps are integers counted in hours, so `timedelta(hours=24)` is
  the literal `24`; the rules use timestamps only through `-` and `≤ / ≥`
  comparisons, never through sub-hour granularity.
* the Python dict `transaction_history : Dict[str, List[Transaction]]` is
  an insertion-ordered association list; a missing key reads as `[]`, and
  `dict[uid].append(t)` creates the key at the end on first use.
* `alert_id` (a fresh uuid) and `created_at` (wall-clock time) carry no
  information any property here depends on, so they are omitted from the
  `AMLAlert` record; `metadata` is an association list mirroring the
  Python dict literals passed to `_create_alert`.
* Python's `str.upper()` is `strUpper`, uppercasing each character.
-/

namespace CryptoBeam

/-- An amount of `d` whole currency units, in cents. -/
def dollars (d : ℤ) : ℤ := d * 100

/-- Python `str.upper()` (ASCII data in this module). -/
def strUpper (s : String) : String := String.mk (s.data.map Char.toUpper)

inductive TransactionType where
  | DEPOSIT
  | WITHDRAWAL
  | TRANSFER
  | CRYPTO_PURCHASE
  | CRYPTO_SALE
  | CRYPTO_TRANSFER
deriving DecidableEq

inductive AlertType where
  | STRUCTURING
  | VELOCITY
  | LARGE_TRANSACTION
  | UNUSUAL_PATTERN
  | HIGH_RISK_JURISDICTION
  | ROUND_AMOUNT
deriving DecidableEq

structure Transaction where
  transaction_id : String
  user_id : String
  amount : ℤ
  currency : String
  transaction_type : TransactionType
  timestamp : ℤ
  counterparty : Option String := none
  jurisdiction : Option String := none
  blockchain_address : Option String := none
deriving DecidableEq

inductive MetaVal where
  | num (q : ℤ)
  | nat (n : ℕ)
  | str (s : String)
deriving DecidableEq

structure AMLAlert where
  alert_type : AlertType
  severity : String
  transaction_ids : List String
  user_id : String
  description : String
  metadata : List (String × MetaVal)
deriving DecidableEq

/-- `CTR_THRESHOLD = 10000` (currency units), in cents. -/
def CTR_THRESHOLD : ℤ := dollars 10000

/-- `STRUCTURING_THRESHOLD = 10000` (currency units), in cents. -/
def STRUCTURING_THRESHOLD : ℤ := dollars 10000

/-- `STRUCTURING_WINDOW_HOURS = 24`. -/
def STRUCTURING_WINDOW_HOURS : ℤ := 24

/-- `MAX_TRANSACTIONS_PER_DAY = 50`. -/
def MAX_TRANSACTIONS_PER_DAY : ℕ := 50

/-- `MAX_VOLUME_PER_DAY = 100000` (currency units), in cents. -/
def MAX_VOLUME_PER_DAY : ℤ := dollars 100000

/-- The per-account history map `transaction_history`. -/
abbrev History := List (String × List Transaction)

/-- `self.transaction_history.get(uid, [])`. -/
def historyGet (h : History) (uid : String) : List Transaction :=
  match h with
  | [] => []
  | (k, v) :: rest => if k = uid then v else historyGet rest uid

/-- The history update of `monitor_transaction`:
`if uid not in dict: dict[uid] = []` followed by `dict[uid].append(t)`.
An absent key is created at the end (Python dict insertion order). -/
def historyRecord (h : History) (t : Transaction) : History :=
  match h with
  | [] => [(t.user_id, [t])]
  | (k, v) :: rest =>
      if k = t.user_id then (k, v ++ [t]) :: rest
      else (k, v) :: historyRecord rest t

/-- Python `recent_txns[-10:]`: the last `n` elements (all if fewer). -/
def lastN (n : ℕ) (xs : List α) : List α := xs.drop (xs.length - n)

/-- Python `x % 1000 == 0 or x % 500 == 0` on an exact decimal amount. -/
def isRoundAmount (a : ℤ) : Bool :=
  a % dollars 1000 == 0 || a % dollars 500 == 0

/-- The window computed inside `_check_structuring`: same account, timestamp
at least `timestamp - STRUCTURING_WINDOW_HOURS`, same `transaction_type`.
(The source filters only on the lower bound `txn.timestamp >= cutoff_time`.) -/
def structuringWindow (h : History) (t : Transaction) : List Transaction :=
  (historyGet h t.user_id).filter fun x =>
    decide (t.timestamp - STRUCTURING_WINDOW_HOURS ≤ x.timestamp)
      && decide (x.transaction_type = t.transaction_type)

/-- The window computed inside `_check_velocity` (and `_check_round_amounts`
before its round filter): same account, timestamp at least `timestamp - 24`. -/
def velocityWindow (h : History) (t : Transaction) : List Transaction :=
  (historyGet h t.user_id).filter fun x => decide (t.timestamp - 24 ≤ x.timestamp)

/-- The window computed inside `_check_round_amounts`: the trailing window
with the round-amount test `txn.amount % 1000 == 0 or txn.amount % 500 == 0`
(note: no `amount >= 1000` floor on the windowed transactions). -/
def roundWindow (h : History) (t : Transaction) : List Transaction :=
  (historyGet h t.user_id).filter fun x =>
    decide (t.timestamp - 24 ≤ x.timestamp) && isRoundAmount x.amount

/-- The alert built by `_check_structuring`. -/
def structuringAlert (h : History) (t : Transaction) : AMLAlert :=
  { alert_type := AlertType.STRUCTURING
    severity := "critical"
    transaction_ids := (structuringWindow h t).map fun x => x.transaction_id
    user_id := t.user_id
    description := "Potential structuring: multiple transactions below CTR threshold in 24h"
    metadata :=
      [("total_amount", MetaVal.num (((structuringWindow h t).map fun x => x.amount).sum)),
       ("transaction_count", MetaVal.nat (structuringWindow h t).length)] }

/-- `TransactionMonitor._check_structuring`, applied to the stored history. -/
def check_structuring (h : History) (t : Transaction) : Option AMLAlert :=
  let recent_txns := structuringWindow h t
  if recent_txns.length < 3 then none
  else
    let total_amount := (recent_txns.map fun x => x.amount).sum
    if STRUCTURING_THRESHOLD ≤ total_amount then
      if (recent_txns.all fun x => decide (x.amount < CTR_THRESHOLD))
          && decide (3 ≤ recent_txns.length) then
        some (structuringAlert h t)
      else none
    else none

/-- The count-velocity alert built by `_check_velocity`. -/
def velocityCountAlert (h : History) (t : Transaction) : AMLAlert :=
  { alert_type := AlertType.VELOCITY
    severity := "high"
    transaction_ids := (lastN 10 (velocityWindow h t)).map fun x => x.transaction_id
    user_id := t.user_id
    description := "High transaction velocity in 24h"
    metadata := [("transaction_count", MetaVal.nat (velocityWindow h t).length)] }

/-- The volume-velocity alert built by `_check_velocity`. -/
def velocityVolumeAlert (h : History) (t : Transaction) : AMLAlert :=
  { alert_type := AlertType.VELOCITY
    severity := "high"
    transaction_ids := (lastN 10 (velocityWindow h t)).map fun x => x.transaction_id
    user_id := t.user_id
    description := "High transaction volume in 24h"
    metadata := [("total_volume", MetaVal.num (((velocityWindow h t).map fun x => x.amount).sum))] }

/-- `TransactionMonitor._check_velocity`. -/
def check_velocity (h : History) (t : Transaction) : Option AMLAlert :=
  let recent_txns := velocityWindow h t
  if MAX_TRANSACTIONS_PER_DAY < recent_txns.length then
    some (velocityCountAlert h t)
  else
    let total_volume := (recent_txns.map fun x => x.amount).sum
    if MAX_VOLUME_PER_DAY < total_volume then
      some (velocityVolumeAlert h t)
    else none

/-- The alert built by `_check_round_amounts`. -/
def roundAlert (h : History) (t : Transaction) : AMLAlert :=
  { alert_type := AlertType.ROUND_AMOUNT
    severity := "medium"
    transaction_ids := (roundWindow h t).map fun x => x.transaction_id
    user_id := t.user_id
    description := "Multiple round amount transactions in 24h"
    metadata := [("transaction_count", MetaVal.nat (roundWindow h t).length)] }

/-- `TransactionMonitor._check_round_amounts`. -/
def check_round_amounts (h : History) (t : Transaction) : Option AMLAlert :=
  if decide (dollars 1000 ≤ t.amount) && isRoundAmount t.amount then
    let recent_round_txns := roundWindow h t
    if 3 ≤ recent_round_txns.length then some (roundAlert h t)
    else none
  else none

/-- The FATF high-risk jurisdiction set of `_check_jurisdiction`. -/
def high_risk_jurisdictions : List String :=
  ["IRAN", "NORTH KOREA", "SYRIA", "MYANMAR"]

/-- The alert built by `_check_jurisdiction`. -/
def jurisdictionAlert (t : Transaction) (j : String) : AMLAlert :=
  { alert_type := AlertType.HIGH_RISK_JURISDICTION
    severity := "critical"
    transaction_ids := [t.transaction_id]
    user_id := t.user_id
    description := "Transaction from high-risk jurisdiction"
    metadata := [("jurisdiction", MetaVal.str j)] }

/-- `TransactionMonitor._check_jurisdiction`.  Python's
`if transaction.jurisdiction and ...` treats both `None` and the empty
string as false, hence the explicit `j ≠ ""` conjunct. -/
def check_jurisdiction (t : Transaction) : Option AMLAlert :=
  match t.jurisdiction with
  | none => none
  | some j =>
      if j ≠ "" ∧ strUpper j ∈ high_risk_jurisdictions then
        some (jurisdictionAlert t j)
      else none

/-- The alert built inline in `monitor_transaction` for the CTR check. -/
def largeAlert (t : Transaction) : AMLAlert :=
  { alert_type := AlertType.LARGE_TRANSACTION
    severity := "high"
    transaction_ids := [t.transaction_id]
    user_id := t.user_id
    description := "Large transaction exceeds CTR threshold"
    metadata := [] }

/-- The large-transaction rule inlined at the top of `monitor_transaction`:
`if transaction.amount >= self.CTR_THRESHOLD`. -/
def largeOption (t : Transaction) : Option AMLAlert :=
  if CTR_THRESHOLD ≤ t.amount then some (largeAlert t) else none

/-- The mutable state of a `TransactionMonitor` instance. -/
structure MonitorState where
  alerts : List AMLAlert
  transaction_history : History
deriving DecidableEq

/-- `TransactionMonitor.__init__`. -/
def initialState : MonitorState := { alerts := [], transaction_history := [] }

/-- `TransactionMonitor.monitor_transaction`: store the transaction, run the
five rules in the fixed order (large → structuring → velocity → round →
jurisdiction) against the updated history, extend `self.alerts`, and return
the list of generated alerts. -/
def monitor_transaction (s : MonitorState) (t : Transaction) :
    MonitorState × List AMLAlert :=
  let h := historyRecord s.transaction_history t
  let alerts :=
    (largeOption t).toList
      ++ (check_structuring h t).toList
      ++ (check_velocity h t).toList
      ++ (check_round_amounts h t).toList
      ++ (check_jurisdiction t).toList
  ({ alerts := s.alerts ++ alerts, transaction_history := h }, alerts)

/-- `TransactionMonitor.get_alerts_by_user`. -/
def get_alerts_by_user (s : MonitorState) (uid : String) : List AMLAlert :=
  s.alerts.filter fun a => a.user_id == uid

/-- `TransactionMonitor.get_alerts_by_severity`. -/
def get_alerts_by_severity (s : MonitorState) (sev : String) : List AMLAlert :=
  s.alerts.filter fun a => a.severity == sev

/-- States reachable from a fresh `TransactionMonitor` by a sequence of
`monitor_transaction` calls. -/
inductive Reachable : MonitorState → Prop where
  | init : Reachable initialState
  | step (s : MonitorState) (t : Transaction) :
      Reachable s → Reachable (monitor_transaction s t).1

/-- Following the spec's words (§4.1): `window(account_id, end_time,
duration)` returns the account's transactions with `timestamp` in the
closed interval `[end_time - duration, end_time]`, in insertion order. -/
def specWindow (h : History) (uid : String) (end_time duration : ℤ) :
    List Transaction :=
  (historyGet h uid).filter fun x =>
    decide (end_time - duration ≤ x.timestamp) && decide (x.timestamp ≤ end_time)

/-- Following the spec's words (§4.3): the structuring window restricted to
the closed interval and to the current transaction's kind. -/
def specWindowSameKind (h : History) (t : Transaction) (duration : ℤ) :
    List Transaction :=
  (historyGet h t.user_id).filter fun x =>
    decide (t.timestamp - duration ≤ x.timestamp) && decide (x.timestamp ≤ t.timestamp)
      && decide (x.transaction_type = t.transaction_type)

/-- Following the spec's words (§3): an alert's referenced transactions are
a non-empty subset of its account's recorded transaction ids. -/
def alertConsistent (s : MonitorState) (a : AMLAlert) : Prop :=
  a.transaction_ids ≠ [] ∧
    ∀ i ∈ a.transaction_ids,
      i ∈ (historyGet s.transaction_history a.user_id).map fun x => x.transaction_id

/-! ### Concrete fixtures used by counterexamples and witnesses -/

/-- Deposit of 4 000 at hour 0 (submitted first). -/
def ct1 : Transaction :=
  { transaction_id := "t1", user_id := "u", amount := dollars 4000,
    currency := "USD", transaction_type := TransactionType.DEPOSIT, timestamp := 0 }

/-- Deposit of 4 000 at hour 30, submitted second (ahead of its peers). -/
def ct2 : Transaction :=
  { transaction_id := "t2", user_id := "u", amount := dollars 4000,
    currency := "USD", transaction_type := TransactionType.DEPOSIT, timestamp := 30 }

/-- Deposit of 4 000 at hour 1, submitted third (out of timestamp order). -/
def ct3 : Transaction :=
  { transaction_id := "t3", user_id := "u", amount := dollars 4000,
    currency := "USD", transaction_type := TransactionType.DEPOSIT, timestamp := 1 }

/-- The engine state after monitoring `ct1` then `ct2`. -/
def s2 : MonitorState :=
  (monitor_transaction (monitor_transaction initialState ct1).1 ct2).1

/-- The stored history of account `u` after also monitoring `ct3`. -/
def h3 : History := (monitor_transaction s2 ct3).1.transaction_history

/-- Deposit of 200 000 at hour 30, submitted first. -/
def cv1 : Transaction :=
  { transaction_id := "v1", user_id := "u", amount := dollars 200000,
    currency := "USD", transaction_type := TransactionType.DEPOSIT, timestamp := 30 }

/-- Deposit of 0.01 at hour 0, submitted second (out of timestamp order). -/
def cv2 : Transaction :=
  { transaction_id := "v2", user_id := "u", amount := 1,
    currency := "USD", transaction_type := TransactionType.DEPOSIT, timestamp := 0 }

/-- The engine state after monitoring `cv1`. -/
def sv1 : MonitorState := (monitor_transaction initialState cv1).1

/-- Deposit of 500 at hour 0 (round, but below the 1 000 floor). -/
def cr1 : Transaction :=
  { transaction_id := "r1", user_id := "u", amount := dollars 500,
    currency := "USD", transaction_type := TransactionType.DEPOSIT, timestamp := 0 }

/-- Second deposit of 500 at hour 0. -/
def cr2 : Transaction :=
  { transaction_id := "r2", user_id := "u", amount := dollars 500,
    currency := "USD", transaction_type := TransactionType.DEPOSIT, timestamp := 0 }

/-- Deposit of 1 000 at hour 0 (satisfies the round pre-condition). -/
def cr3 : Transaction :=
  { transaction_id := "r3", user_id := "u", amount := dollars 1000,
    currency := "USD", transaction_type := TransactionType.DEPOSIT, timestamp := 0 }

/-- The engine state after monitoring `cr1` then `cr2`. -/
def sr2 : MonitorState :=
  (monitor_transaction (monitor_transaction initialState cr1).1 cr2).1

/-- A transaction at exactly the CTR threshold (10 000.00). -/
def tCtrEq : Transaction :=
  { transaction_id := "L1", user_id := "u", amount := dollars 10000,
    currency := "USD", transaction_type := TransactionType.WITHDRAWAL, timestamp := 0 }

/-- A transaction of 9 999.99, one cent below the CTR threshold. -/
def tCtrBelow : Transaction :=
  { transaction_id := "L2", user_id := "u", amount := dollars 10000 - 1,
    currency := "USD", transaction_type := TransactionType.WITHDRAWAL, timestamp := 0 }

/-- A transaction with lowercase jurisdiction string `"iran"`. -/
def txIran : Transaction :=
  { transaction_id := "j1", user_id := "u", amount := 1, currency := "USD",
    transaction_type := TransactionType.DEPOSIT, timestamp := 0,
    jurisdiction := some "iran" }

/-- A transaction with no jurisdiction field. -/
def txNoJu : Transaction :=
  { transaction_id := "j2", user_id := "u", amount := 1, currency := "USD",
    transaction_type := TransactionType.DEPOSIT, timestamp := 0 }

/-- A small transfer at hour 0. -/
def txUnit : Transaction :=
  { transaction_id := "x", user_id := "u", amount := 1, currency := "USD",
    transaction_type := TransactionType.TRANSFER, timestamp := 0 }

/-- A stored history of 51 small transfers for one account. -/
def hV : History := [("u", List.replicate 51 txUnit)]

/-- An in-order one-element history (timestamps never after the current). -/
def hOrd : History := [("u", [ct1])]

/-! ### Helper lemmas -/

theorem historyGet_record_self (h : History) (t : Transaction) :
    historyGet (historyRecord h t) t.user_id = historyGet h t.user_id ++ [t] := by
  induction h with
  | nil => simp [historyRecord, historyGet]
  | cons kv rest ih =>
      obtain ⟨k, v⟩ := kv
      by_cases hk : k = t.user_id
      · subst hk
        simp [historyRecord, historyGet]
      · simp [historyRecord, historyGet, hk, ih]

theorem historyGet_record_ne (h : History) (t : Transaction) (uid : String)
    (hne : uid ≠ t.user_id) :
    historyGet (historyRecord h t) uid = historyGet h uid := by
  have hne2 : ¬ t.user_id = uid := fun hh => hne hh.symm
  induction h with
  | nil => simp [historyRecord, historyGet, hne2]
  | cons kv rest ih =>
      obtain ⟨k, v⟩ := kv
      by_cases hk : k = t.user_id
      · subst hk
        simp [historyRecord, historyGet, hne2]
      · simp [historyRecord, historyGet, hk, ih]

theorem historyGet_record (h : History) (t : Transaction) (uid : String) :
    historyGet (historyRecord h t) uid =
      if uid = t.user_id then historyGet h uid ++ [t] else historyGet h uid := by
  by_cases hu : uid = t.user_id
  · subst hu
    simp [historyGet_record_self]
  · simp [hu, historyGet_record_ne h t uid hu]

theorem self_mem_structuringWindow (h : History) (t : Transaction) :
    t ∈ structuringWindow (historyRecord h t) t := by
  unfold structuringWindow
  rw [historyGet_record_self]
  refine List.mem_filter.2 ⟨List.mem_append.2 (Or.inr (List.mem_singleton.2 rfl)), ?_⟩
  simp only [Bool.and_eq_true, decide_eq_true_eq]
  exact ⟨by unfold STRUCTURING_WINDOW_HOURS; omega, by trivial⟩

theorem self_mem_roundWindow (h : History) (t : Transaction)
    (hr : isRoundAmount t.amount = true) :
    t ∈ roundWindow (historyRecord h t) t := by
  unfold roundWindow
  rw [historyGet_record_self]
  refine List.mem_filter.2 ⟨List.mem_append.2 (Or.inr (List.mem_singleton.2 rfl)), ?_⟩
  simp only [Bool.and_eq_true, decide_eq_true_eq]
  exact ⟨by omega, hr⟩

theorem check_structuring_eq (h : History) (t : Transaction) :
    check_structuring h t =
      if 3 ≤ (structuringWindow h t).length
          ∧ STRUCTURING_THRESHOLD ≤ ((structuringWindow h t).map fun x => x.amount).sum
          ∧ ∀ x ∈ structuringWindow h t, x.amount < CTR_THRESHOLD
        then some (structuringAlert h t) else none := by
  simp only [check_structuring]
  by_cases h1 : (structuringWindow h t).length < 3
  · have hnot : ¬ (3 ≤ (structuringWindow h t).length
        ∧ STRUCTURING_THRESHOLD ≤ ((structuringWindow h t).map fun x => x.amount).sum
        ∧ ∀ x ∈ structuringWindow h t, x.amount < CTR_THRESHOLD) :=
      fun hc => absurd hc.1 (by omega)
    simp only [if_pos h1, if_neg hnot]
  · simp only [if_neg h1]
    by_cases h2 : STRUCTURING_THRESHOLD ≤ ((structuringWindow h t).map fun x => x.amount).sum
    · simp only [if_pos h2]
      by_cases h3 : ∀ x ∈ structuringWindow h t, x.amount < CTR_THRESHOLD
      · have hb : (((structuringWindow h t).all fun x => decide (x.amount < CTR_THRESHOLD))
            && decide (3 ≤ (structuringWindow h t).length)) = true := by
          simp only [Bool.and_eq_true, List.all_eq_true, decide_eq_true_eq]
          exact ⟨fun x hx => h3 x hx, by omega⟩
        have hc : 3 ≤ (structuringWindow h t).length
            ∧ STRUCTURING_THRESHOLD ≤ ((structuringWindow h t).map fun x => x.amount).sum
            ∧ ∀ x ∈ structuringWindow h t, x.amount < CTR_THRESHOLD := ⟨by omega, h2, h3⟩
        rw [if_pos hb, if_pos hc]
      · have hb : ¬ ((((structuringWindow h t).all fun x => decide (x.amount < CTR_THRESHOLD))
            && decide (3 ≤ (structuringWindow h t).length)) = true) := by
          simp only [Bool.and_eq_true, List.all_eq_true, decide_eq_true_eq, not_and]
          intro hall
          exact absurd (fun x hx => hall x hx) h3
        have hnot : ¬ (3 ≤ (structuringWindow h t).length
            ∧ STRUCTURING_THRESHOLD ≤ ((structuringWindow h t).map fun x => x.amount).sum
            ∧ ∀ x ∈ structuringWindow h t, x.amount < CTR_THRESHOLD) :=
          fun hc => h3 hc.2.2
        rw [if_neg hb, if_neg hnot]
    · have hnot : ¬ (3 ≤ (structuringWindow h t).length
          ∧ STRUCTURING_THRESHOLD ≤ ((structuringWindow h t).map fun x => x.amount).sum
          ∧ ∀ x ∈ structuringWindow h t, x.amount < CTR_THRESHOLD) :=
        fun hc => h2 hc.2.1
      simp only [if_neg h2, if_neg hnot]

theorem type_of_check_structuring {h : History} {t : Transaction} {a : AMLAlert}
    (ha : check_structuring h t = some a) : a.alert_type = AlertType.STRUCTURING := by
  rw [check_structuring_eq] at ha
  split_ifs at ha <;> cases ha <;> rfl

theorem type_of_check_velocity {h : History} {t : Transaction} {a : AMLAlert}
    (ha : check_velocity h t = some a) : a.alert_type = AlertType.VELOCITY := by
  simp only [check_velocity] at ha
  split_ifs at ha <;> cases ha <;> rfl

theorem type_of_check_round {h : History} {t : Transaction} {a : AMLAlert}
    (ha : check_round_amounts h t = some a) : a.alert_type = AlertType.ROUND_AMOUNT := by
  simp only [check_round_amounts] at ha
  split_ifs at ha <;> cases ha <;> rfl

theorem type_of_check_jurisdiction {t : Transaction} {a : AMLAlert}
    (ha : check_jurisdiction t = some a) :
    a.alert_type = AlertType.HIGH_RISK_JURISDICTION := by
  unfold check_jurisdiction at ha
  cases hj : t.jurisdiction with
  | none => rw [hj] at ha; cases ha
  | some j =>
      rw [hj] at ha
      dsimp only at ha
      split_ifs at ha <;> cases ha <;> rfl

theorem type_of_largeOption {t : Transaction} {a : AMLAlert}
    (ha : largeOption t = some a) : a.alert_type = AlertType.LARGE_TRANSACTION := by
  unfold largeOption at ha
  split_ifs at ha <;> cases ha <;> rfl

theorem filter_toList_none {o : Option AMLAlert} {p : AMLAlert → Bool}
    (hp : ∀ a, o = some a → p a = false) : o.toList.filter p = [] := by
  cases o with
  | none => rfl
  | some a => simp [Option.toList, List.filter, hp a rfl]

theorem monitor_result_eq (s : MonitorState) (t : Transaction) :
    (monitor_transaction s t).2 =
      (largeOption t).toList
        ++ (check_structuring (historyRecord s.transaction_history t) t).toList
        ++ (check_velocity (historyRecord s.transaction_history t) t).toList
        ++ (check_round_amounts (historyRecord s.transaction_history t) t).toList
        ++ (check_jurisdiction t).toList := rfl

theorem monitor_filter_large (s : MonitorState) (t : Transaction) :
    ((monitor_transaction s t).2.filter fun a => a.alert_type == AlertType.LARGE_TRANSACTION)
      = if CTR_THRESHOLD ≤ t.amount then [largeAlert t] else [] := by
  have e1 : ((check_structuring (historyRecord s.transaction_history t) t).toList.filter
      fun a => a.alert_type == AlertType.LARGE_TRANSACTION) = [] :=
    filter_toList_none (fun a ha => by rw [type_of_check_structuring ha]; rfl)
  have e2 : ((check_velocity (historyRecord s.transaction_history t) t).toList.filter
      fun a => a.alert_type == AlertType.LARGE_TRANSACTION) = [] :=
    filter_toList_none (fun a ha => by rw [type_of_check_velocity ha]; rfl)
  have e3 : ((check_round_amounts (historyRecord s.transaction_history t) t).toList.filter
      fun a => a.alert_type == AlertType.LARGE_TRANSACTION) = [] :=
    filter_toList_none (fun a ha => by rw [type_of_check_round ha]; rfl)
  have e4 : ((check_jurisdiction t).toList.filter
      fun a => a.alert_type == AlertType.LARGE_TRANSACTION) = [] :=
    filter_toList_none (fun a ha => by rw [type_of_check_jurisdiction ha]; rfl)
  have e0 : ((largeOption t).toList.filter fun a => a.alert_type == AlertType.LARGE_TRANSACTION)
      = if CTR_THRESHOLD ≤ t.amount then [largeAlert t] else [] := by
    unfold largeOption
    split_ifs
    · rfl
    · rfl
  rw [monitor_result_eq, List.filter_append, List.filter_append, List.filter_append,
    List.filter_append, e1, e2, e3, e4, e0]
  split_ifs <;> rfl

theorem monitor_filter_jurisdiction (s : MonitorState) (t : Transaction) :
    ((monitor_transaction s t).2.filter fun a =>
        a.alert_type == AlertType.HIGH_RISK_JURISDICTION)
      = (check_jurisdiction t).toList := by
  have e0 : ((largeOption t).toList.filter
      fun a => a.alert_type == AlertType.HIGH_RISK_JURISDICTION) = [] :=
    filter_toList_none (fun a ha => by rw [type_of_largeOption ha]; rfl)
  have e1 : ((check_structuring (historyRecord s.transaction_history t) t).toList.filter
      fun a => a.alert_type == AlertType.HIGH_RISK_JURISDICTION) = [] :=
    filter_toList_none (fun a ha => by rw [type_of_check_structuring ha]; rfl)
  have e2 : ((check_velocity (historyRecord s.transaction_history t) t).toList.filter
      fun a => a.alert_type == AlertType.HIGH_RISK_JURISDICTION) = [] :=
    filter_toList_none (fun a ha => by rw [type_of_check_velocity ha]; rfl)
  have e3 : ((check_round_amounts (historyRecord s.transaction_history t) t).toList.filter
      fun a => a.alert_type == AlertType.HIGH_RISK_JURISDICTION) = [] :=
    filter_toList_none (fun a ha => by rw [type_of_check_round ha]; rfl)
  have e4 : ((check_jurisdiction t).toList.filter fun a =>
      a.alert_type == AlertType.HIGH_RISK_JURISDICTION) = (check_jurisdiction t).toList := by
    cases hj : check_jurisdiction t with
    | none => rfl
    | some a =>
        simp [Option.toList, List.filter, type_of_check_jurisdiction hj]
  rw [monitor_result_eq, List.filter_append, List.filter_append, List.filter_append,
    List.filter_append, e0, e1, e2, e3, e4]
  rfl

/-- The seed set of §4.6, written as in the spec. -/
def spec_high_risk_seed : List String := ["Iran", "North Korea", "Syria", "Myanmar"]

/-- Following the spec's words (§4.6): the jurisdiction field is present and
is, case-insensitively, a member of the seed set. -/
def spec_jurisdiction_hit (t : Transaction) : Bool :=
  match t.jurisdiction with
  | none => false
  | some j => spec_high_risk_seed.any fun m => strUpper j == strUpper m

theorem jurisdiction_cond_iff (j : String) :
    (j ≠ "" ∧ strUpper j ∈ high_risk_jurisdictions) ↔
      (spec_high_risk_seed.any fun m => strUpper j == strUpper m) = true := by
  have e1 : strUpper "Iran" = "IRAN" := by decide
  have e2 : strUpper "North Korea" = "NORTH KOREA" := by decide
  have e3 : strUpper "Syria" = "SYRIA" := by decide
  have e4 : strUpper "Myanmar" = "MYANMAR" := by decide
  simp only [spec_high_risk_seed, high_risk_jurisdictions, List.any_cons, List.any_nil,
    Bool.or_eq_true, beq_iff_eq, List.mem_cons, List.not_mem_nil, Bool.false_eq_true,
    or_false, e1, e2, e3, e4, ne_eq]
  constructor
  · exact fun hc => hc.2
  · intro hD
    refine ⟨?_, hD⟩
    intro hj
    subst hj
    revert hD
    decide

theorem check_jurisdiction_spec (t : Transaction) :
    (check_jurisdiction t).toList =
      if spec_jurisdiction_hit t = true
      then [jurisdictionAlert t (t.jurisdiction.getD "")] else [] := by
  unfold check_jurisdiction spec_jurisdiction_hit
  cases hj : t.jurisdiction with
  | none => simp
  | some j =>
      dsimp only [Option.getD]
      by_cases hcond : j ≠ "" ∧ strUpper j ∈ high_risk_jurisdictions
      · rw [if_pos hcond, if_pos ((jurisdiction_cond_iff j).1 hcond)]
        rfl
      · rw [if_neg hcond, if_neg (fun hhit => hcond ((jurisdiction_cond_iff j).2 hhit))]
        rfl

theorem check_round_eq (h : History) (t : Transaction) :
    check_round_amounts h t =
      if (dollars 1000 ≤ t.amount ∧ isRoundAmount t.amount = true)
          ∧ 3 ≤ (roundWindow h t).length
        then some (roundAlert h t) else none := by
  simp only [check_round_amounts]
  by_cases hpre : dollars 1000 ≤ t.amount ∧ isRoundAmount t.amount = true
  · have hb : (decide (dollars 1000 ≤ t.amount) && isRoundAmount t.amount) = true := by
      simp only [Bool.and_eq_true, decide_eq_true_eq]
      exact hpre
    rw [if_pos hb]
    by_cases hlen : 3 ≤ (roundWindow h t).length
    · have hc : (dollars 1000 ≤ t.amount ∧ isRoundAmount t.amount = true)
          ∧ 3 ≤ (roundWindow h t).length := ⟨hpre, hlen⟩
      rw [if_pos hlen, if_pos hc]
    · rw [if_neg hlen, if_neg (fun hc => hlen hc.2)]
  · have hb : ¬ ((decide (dollars 1000 ≤ t.amount) && isRoundAmount t.amount) = true) := by
      simp only [Bool.and_eq_true, decide_eq_true_eq]
      exact hpre
    rw [if_neg hb, if_neg (fun hc => hpre hc.1)]

/-! ### Claim theorems -/

/-- C1 counterexample: after submitting `ct1` (hour 0), `ct2` (hour 30) and
`ct3` (hour 1) out of timestamp order, the 24-hour window the rules use when
evaluating `ct3` differs from the closed interval `[ct3.timestamp - 24,
ct3.timestamp]`: it contains `ct2`, whose timestamp is strictly after the
current transaction's. -/
theorem c1_counterexample :
    velocityWindow h3 ct3 ≠ specWindow h3 ct3.user_id ct3.timestamp 24
    ∧ ct2 ∈ velocityWindow h3 ct3
    ∧ ct3.timestamp < ct2.timestamp := by decide

/-- C1 (amended): the 24-hour window used by the rules contains exactly the
stored transactions of the account whose timestamp is at least the current
transaction's timestamp minus 24 hours — with no upper bound — and the
structuring window additionally restricts to the current transaction's kind;
whenever no stored transaction of the account is timestamped after the
current transaction (in particular for in-order submission), these windows
coincide with the spec's closed-interval window. -/
theorem c1_trailing_window (h : History) (t : Transaction) :
    (∀ x, x ∈ velocityWindow h t ↔
        x ∈ historyGet h t.user_id ∧ t.timestamp - 24 ≤ x.timestamp)
    ∧ (∀ x, x ∈ structuringWindow h t ↔
        x ∈ historyGet h t.user_id ∧ t.timestamp - STRUCTURING_WINDOW_HOURS ≤ x.timestamp
          ∧ x.transaction_type = t.transaction_type)
    ∧ ((∀ x ∈ historyGet h t.user_id, x.timestamp ≤ t.timestamp) →
        velocityWindow h t = specWindow h t.user_id t.timestamp 24
          ∧ structuringWindow h t = specWindowSameKind h t STRUCTURING_WINDOW_HOURS) := by
  refine ⟨?_, ?_, fun hord => ⟨?_, ?_⟩⟩
  · intro x
    unfold velocityWindow
    rw [List.mem_filter]
    simp only [decide_eq_true_eq]
  · intro x
    unfold structuringWindow
    rw [List.mem_filter]
    simp only [Bool.and_eq_true, decide_eq_true_eq]
  · unfold velocityWindow specWindow
    apply List.filter_congr
    intro x hx
    rw [decide_eq_true (hord x hx), Bool.and_true]
  · unfold structuringWindow specWindowSameKind
    apply List.filter_congr
    intro x hx
    rw [decide_eq_true (hord x hx), Bool.and_true]

/-- C1 witness: on an in-order history the rule windows equal the spec's
closed-interval window. -/
theorem c1_trailing_window_witness :
    velocityWindow hOrd ct3 = specWindow hOrd ct3.user_id ct3.timestamp 24
    ∧ structuringWindow hOrd ct3 = specWindowSameKind hOrd ct3 STRUCTURING_WINDOW_HOURS :=
  (c1_trailing_window hOrd ct3).2.2 (by decide)

/-- C2 counterexample: monitoring `ct3` emits a structuring alert although
only two same-kind transactions (fewer than 3) lie in the closed trailing
24-hour interval `[ct3.timestamp - 24, ct3.timestamp]`, so the claimed
"if and only if" over the trailing 24 hours fails. -/
theorem c2_counterexample :
    ((monitor_transaction s2 ct3).2.filter fun a =>
        a.alert_type == AlertType.STRUCTURING).length = 1
    ∧ (specWindowSameKind h3 ct3 STRUCTURING_WINDOW_HOURS).length < 3 := by decide

/-- C2 (amended): the structuring rule considers the same-account, same-kind
transactions with timestamp at least the current timestamp minus 24 hours
(no upper bound), a set that includes the current transaction; it emits the
critical structuring alert referencing all transactions of that window with
metadata `total_amount` and `transaction_count` if and only if at least 3
such transactions exist, their amounts sum to at least 10 000, and every one
is strictly below 10 000; otherwise it emits no alert. -/
theorem c2_structuring_rule (h : History) (t : Transaction) :
    t ∈ structuringWindow (historyRecord h t) t
    ∧ (check_structuring (historyRecord h t) t =
        if 3 ≤ (structuringWindow (historyRecord h t) t).length
            ∧ STRUCTURING_THRESHOLD ≤
                ((structuringWindow (historyRecord h t) t).map fun x => x.amount).sum
            ∧ ∀ x ∈ structuringWindow (historyRecord h t) t, x.amount < CTR_THRESHOLD
          then some (structuringAlert (historyRecord h t) t) else none) :=
  ⟨self_mem_structuringWindow h t, check_structuring_eq (historyRecord h t) t⟩

/-- C2 witness: the membership fact instantiated on a concrete transaction. -/
theorem c2_structuring_rule_witness :
    ct1 ∈ structuringWindow (historyRecord [] ct1) ct1 :=
  (c2_structuring_rule [] ct1).1

/-- C3 counterexample: after `cv1` (200 000 at hour 30) and then `cv2`
(0.01 at hour 0, out of order), monitoring `cv2` returns a velocity alert
although the closed trailing 24-hour window contains one transaction (count
1 ≤ 50) with volume 0.01 ≤ 100 000, so the claimed "only if" fails. -/
theorem c3_counterexample :
    ((monitor_transaction sv1 cv2).2.filter fun a =>
        a.alert_type == AlertType.VELOCITY).length = 1
    ∧ (specWindow (monitor_transaction sv1 cv2).1.transaction_history
        cv2.user_id cv2.timestamp 24).length ≤ MAX_TRANSACTIONS_PER_DAY
    ∧ ((specWindow (monitor_transaction sv1 cv2).1.transaction_history
        cv2.user_id cv2.timestamp 24).map fun x => x.amount).sum ≤ MAX_VOLUME_PER_DAY := by
  decide

/-- C3 (amended): over the window of the account's transactions with
timestamp at least the current timestamp minus 24 hours (no upper bound),
the velocity rule returns at most one alert: if the window's count exceeds
50 it returns the high-severity count alert referencing the window's last 10
transactions in insertion order with metadata `transaction_count`, without
evaluating the volume check; only if the count did not trigger and the
window's volume exceeds 100 000 does it return the high-severity volume
alert with metadata `total_volume`; otherwise it returns none. -/
theorem c3_velocity_rule (h : History) (t : Transaction) :
    (MAX_TRANSACTIONS_PER_DAY < (velocityWindow h t).length →
        check_velocity h t = some (velocityCountAlert h t))
    ∧ ((velocityWindow h t).length ≤ MAX_TRANSACTIONS_PER_DAY →
        MAX_VOLUME_PER_DAY < ((velocityWindow h t).map fun x => x.amount).sum →
        check_velocity h t = some (velocityVolumeAlert h t))
    ∧ ((velocityWindow h t).length ≤ MAX_TRANSACTIONS_PER_DAY →
        ((velocityWindow h t).map fun x => x.amount).sum ≤ MAX_VOLUME_PER_DAY →
        check_velocity h t = none) := by
  refine ⟨?_, ?_, ?_⟩
  · intro hcount
    simp only [check_velocity]
    rw [if_pos hcount]
  · intro hcount hvol
    simp only [check_velocity]
    rw [if_neg (by omega), if_pos hvol]
  · intro hcount hvol
    simp only [check_velocity]
    rw [if_neg (by omega), if_neg (by omega)]

/-- C3 witness: with 51 stored transactions in the window, the count alert
is returned. -/
theorem c3_velocity_rule_witness :
    check_velocity hV txUnit = some (velocityCountAlert hV txUnit) :=
  (c3_velocity_rule hV txUnit).1 (by decide)

/-- C4 counterexample: monitoring `cr3` (amount 1 000) after two 500-amount
transactions emits a round-amount alert although only one transaction of the
trailing window satisfies the claimed pre-condition predicate (amount at
least 1 000 and divisible by 1 000 or 500) — the code's window scan omits
the `amount ≥ 1000` floor and counts the two 500-amount transactions. -/
theorem c4_counterexample :
    ((monitor_transaction sr2 cr3).2.filter fun a =>
        a.alert_type == AlertType.ROUND_AMOUNT).length = 1
    ∧ ((specWindow (monitor_transaction sr2 cr3).1.transaction_history
          cr3.user_id cr3.timestamp 24).filter fun x =>
        decide (dollars 1000 ≤ x.amount) && isRoundAmount x.amount).length < 3 := by
  decide

/-- C4 (amended): the round-amount rule emits an alert only when the current
transaction satisfies the pre-condition (amount at least 1 000 and divisible
by 1 000 or 500); when it does, it counts the transactions of the account
with timestamp at least the current timestamp minus 24 hours (any kind) that
satisfy only the divisibility part of the predicate — with no 1 000 floor —
a set including the current transaction, and emits exactly one
medium-severity alert referencing all of them with metadata
`transaction_count` if and only if at least 3 qualify; if the current
transaction fails the pre-condition, no alert is emitted. -/
theorem c4_round_amount_rule (h : History) (t : Transaction) :
    (¬ (dollars 1000 ≤ t.amount ∧ isRoundAmount t.amount = true) →
        check_round_amounts h t = none)
    ∧ ((dollars 1000 ≤ t.amount ∧ isRoundAmount t.amount = true) →
        t ∈ roundWindow (historyRecord h t) t)
    ∧ (check_round_amounts h t =
        if (dollars 1000 ≤ t.amount ∧ isRoundAmount t.amount = true)
            ∧ 3 ≤ (roundWindow h t).length
          then some (roundAlert h t) else none) := by
  refine ⟨?_, fun hpre => self_mem_roundWindow h t hpre.2, check_round_eq h t⟩
  intro hpre
  rw [check_round_eq]
  exact if_neg (fun hc => hpre hc.1)

/-- C4 witness: a transaction of exactly 1 000 satisfies the pre-condition
and belongs to its own round window. -/
theorem c4_round_amount_rule_witness :
    cr3 ∈ roundWindow (historyRecord [] cr3) cr3 :=
  (c4_round_amount_rule [] cr3).2.1 (by decide)

/-- C5: for every monitored transaction, the large-transaction rule emits
exactly one high-severity `large_transaction` alert referencing only the
triggering transaction if and only if its amount is at least the CTR
threshold of 10 000 (no currency conversion); in particular an amount of
exactly 10 000.00 triggers it and 9 999.99 does not. -/
theorem c5_large_transaction_rule (s : MonitorState) (t : Transaction) :
    (((monitor_transaction s t).2.filter fun a =>
        a.alert_type == AlertType.LARGE_TRANSACTION)
      = if CTR_THRESHOLD ≤ t.amount then [largeAlert t] else [])
    ∧ ((monitor_transaction initialState tCtrEq).2.filter fun a =>
        a.alert_type == AlertType.LARGE_TRANSACTION) = [largeAlert tCtrEq]
    ∧ ((monitor_transaction initialState tCtrBelow).2.filter fun a =>
        a.alert_type == AlertType.LARGE_TRANSACTION) = [] :=
  ⟨monitor_filter_large s t, by decide, by decide⟩

/-- C6: for every monitored transaction, the jurisdiction rule emits exactly
one critical alert referencing only the current transaction, with metadata
`jurisdiction`, if and only if the jurisdiction field is present and is,
case-insensitively, a member of {Iran, North Korea, Syria, Myanmar}; the
lowercase string "iran" triggers it and a missing jurisdiction never does. -/
theorem c6_jurisdiction_rule (s : MonitorState) (t : Transaction) :
    (((monitor_transaction s t).2.filter fun a =>
        a.alert_type == AlertType.HIGH_RISK_JURISDICTION)
      = if spec_jurisdiction_hit t = true
        then [jurisdictionAlert t (t.jurisdiction.getD "")] else [])
    ∧ ((monitor_transaction initialState txIran).2.filter fun a =>
        a.alert_type == AlertType.HIGH_RISK_JURISDICTION) = [jurisdictionAlert txIran "iran"]
    ∧ ((monitor_transaction initialState txNoJu).2.filter fun a =>
        a.alert_type == AlertType.HIGH_RISK_JURISDICTION) = [] :=
  ⟨by rw [monitor_filter_jurisdiction, check_jurisdiction_spec], by decide, by decide⟩

/-- C7: every `monitor` call first appends the transaction to the per-account
history, evaluates the five rules in the fixed order large → structuring →
velocity → round-amount → jurisdiction against the updated history, returns
exactly the non-absent results in that order, and appends that same sequence
to the alert sink. -/
theorem c7_orchestration (s : MonitorState) (t : Transaction) :
    (monitor_transaction s t).1.transaction_history = historyRecord s.transaction_history t
    ∧ (monitor_transaction s t).2 =
        (largeOption t).toList
          ++ (check_structuring (historyRecord s.transaction_history t) t).toList
          ++ (check_velocity (historyRecord s.transaction_history t) t).toList
          ++ (check_round_amounts (historyRecord s.transaction_history t) t).toList
          ++ (check_jurisdiction t).toList
    ∧ (monitor_transaction s t).1.alerts = s.alerts ++ (monitor_transaction s t).2 :=
  ⟨rfl, rfl, rfl⟩

theorem window_ids_subset {w l : List Transaction} (hsub : w ⊆ l) :
    ∀ i ∈ w.map fun x => x.transaction_id, i ∈ l.map fun x => x.transaction_id := by
  intro i hi
  rcases List.mem_map.1 hi with ⟨x, hx, hxi⟩
  exact List.mem_map.2 ⟨x, hsub hx, hxi⟩

theorem self_id_mem_record (s : MonitorState) (t : Transaction) :
    t.transaction_id ∈ (historyGet (historyRecord s.transaction_history t) t.user_id).map
      fun x => x.transaction_id := by
  rw [historyGet_record_self, List.map_append]
  exact List.mem_append.2 (Or.inr (by simp))

theorem monitor_new_alerts_consistent (s : MonitorState) (t : Transaction) :
    ∀ a ∈ (monitor_transaction s t).2, alertConsistent (monitor_transaction s t).1 a := by
  intro a ha
  have hstate : (monitor_transaction s t).1.transaction_history
      = historyRecord s.transaction_history t := rfl
  rw [monitor_result_eq] at ha
  simp only [List.mem_append, Option.mem_toList, Option.mem_def] at ha
  rcases ha with ((((h | h) | h) | h) | h)
  · unfold largeOption at h
    split_ifs at h
    cases h
    refine ⟨by simp [largeAlert], fun i hi => ?_⟩
    simp only [largeAlert, List.mem_singleton] at hi
    subst hi
    rw [hstate]
    exact self_id_mem_record s t
  · rw [check_structuring_eq] at h
    split_ifs at h with hc
    cases h
    refine ⟨?_, fun i hi => ?_⟩
    · simp only [structuringAlert, ne_eq]
      intro hnil
      have := congrArg List.length hnil
      simp only [List.length_map, List.length_nil] at this
      omega
    · simp only [structuringAlert] at hi ⊢
      rw [hstate]
      exact window_ids_subset (fun x hx => List.mem_of_mem_filter hx) i hi
  · simp only [check_velocity] at h
    split_ifs at h with h1 h2
    · cases h
      refine ⟨?_, fun i hi => ?_⟩
      · simp only [velocityCountAlert, ne_eq]
        intro hnil
        have := congrArg List.length hnil
        simp only [List.length_map, List.length_nil, lastN, List.length_drop] at this
        omega
      · simp only [velocityCountAlert] at hi ⊢
        rw [hstate]
        refine window_ids_subset (fun x hx => ?_) i hi
        exact List.mem_of_mem_filter (List.drop_subset _ _ hx)
    · cases h
      have hlen : 0 < (velocityWindow (historyRecord s.transaction_history t) t).length := by
        rcases Nat.eq_zero_or_pos
            (velocityWindow (historyRecord s.transaction_history t) t).length with hz | hp
        · rw [List.length_eq_zero] at hz
          rw [hz] at h2
          simp only [List.map_nil, List.sum_nil] at h2
          exact absurd h2 (by unfold MAX_VOLUME_PER_DAY dollars; omega)
        · exact hp
      refine ⟨?_, fun i hi => ?_⟩
      · simp only [velocityVolumeAlert, ne_eq]
        intro hnil
        have := congrArg List.length hnil
        simp only [List.length_map, List.length_nil, lastN, List.length_drop] at this
        omega
      · simp only [velocityVolumeAlert] at hi ⊢
        rw [hstate]
        refine window_ids_subset (fun x hx => ?_) i hi
        exact List.mem_of_mem_filter (List.drop_subset _ _ hx)
  · rw [check_round_eq] at h
    split_ifs at h with hc
    cases h
    refine ⟨?_, fun i hi => ?_⟩
    · simp only [roundAlert, ne_eq]
      intro hnil
      have := congrArg List.length hnil
      simp only [List.length_map, List.length_nil] at this
      omega
    · simp only [roundAlert] at hi ⊢
      rw [hstate]
      exact window_ids_subset (fun x hx => List.mem_of_mem_filter hx) i hi
  · unfold check_jurisdiction at h
    cases hj : t.jurisdiction with
    | none => rw [hj] at h; cases h
    | some j =>
        rw [hj] at h
        dsimp only at h
        split_ifs at h
        cases h
        refine ⟨by simp [jurisdictionAlert], fun i hi => ?_⟩
        simp only [jurisdictionAlert, List.mem_singleton] at hi
        subst hi
        rw [hstate]
        exact self_id_mem_record s t

theorem consistent_mono (s : MonitorState) (t : Transaction) (a : AMLAlert)
    (hc : alertConsistent s a) : alertConsistent (monitor_transaction s t).1 a := by
  obtain ⟨hne, hmem⟩ := hc
  refine ⟨hne, fun i hi => ?_⟩
  have hgot := hmem i hi
  have hstate : (monitor_transaction s t).1.transaction_history
      = historyRecord s.transaction_history t := rfl
  rw [hstate, historyGet_record]
  by_cases hu : a.user_id = t.user_id
  · rw [if_pos hu, List.map_append]
    exact List.mem_append.2 (Or.inl hgot)
  · rw [if_neg hu]
    exact hgot

/-- C8: in every reachable engine state, every recorded alert references a
non-empty list of transaction ids all present in its account's history (the
history only grows, so this holds from creation onward); moreover each
`monitor` call only appends to the alert sink — never removing or mutating
an existing alert — and the alerts it creates are consistent with the
history at the moment of their creation. -/
theorem c8_alert_invariant (s : MonitorState) (hs : Reachable s) :
    (∀ a ∈ s.alerts, alertConsistent s a)
    ∧ (∀ t, (monitor_transaction s t).1.alerts = s.alerts ++ (monitor_transaction s t).2)
    ∧ (∀ t, ∀ a ∈ (monitor_transaction s t).2,
        alertConsistent (monitor_transaction s t).1 a) := by
  refine ⟨?_, fun t => rfl, fun t => monitor_new_alerts_consistent s t⟩
  induction hs with
  | init =>
      intro a ha
      rw [show initialState.alerts = ([] : List AMLAlert) from rfl] at ha
      cases ha
  | step s t hr ih =>
      intro a ha
      rw [show (monitor_transaction s t).1.alerts
          = s.alerts ++ (monitor_transaction s t).2 from rfl] at ha
      rcases List.mem_append.1 ha with h1 | h2
      · exact consistent_mono s t a (ih a h1)
      · exact monitor_new_alerts_consistent s t a h2

/-- C8 witness: the invariant instantiated at the initial (empty) state. -/
theorem c8_alert_invariant_witness :
    (∀ a ∈ initialState.alerts, alertConsistent initialState a)
    ∧ (∀ t, (monitor_transaction initialState t).1.alerts
        = initialState.alerts ++ (monitor_transaction initialState t).2)
    ∧ (∀ t, ∀ a ∈ (monitor_transaction initialState t).2,
        alertConsistent (monitor_transaction initialState t).1 a) :=
  c8_alert_invariant initialState Reachable.init

/-- C9: a single `monitor` call never returns both a large-transaction alert
and a structuring alert: if a large-transaction alert is present then the
current amount reaches the CTR threshold, the current transaction lies in
the structuring window, and the all-strictly-below-threshold condition of
the structuring rule fails. -/
theorem c9_no_large_and_structuring (s : MonitorState) (t : Transaction)
    (hL : ∃ a ∈ (monitor_transaction s t).2,
        a.alert_type = AlertType.LARGE_TRANSACTION) :
    ∀ a ∈ (monitor_transaction s t).2, a.alert_type ≠ AlertType.STRUCTURING := by
  have hamt : CTR_THRESHOLD ≤ t.amount := by
    obtain ⟨a, ha, hty⟩ := hL
    rw [monitor_result_eq] at ha
    simp only [List.mem_append, Option.mem_toList, Option.mem_def] at ha
    rcases ha with ((((h | h) | h) | h) | h)
    · unfold largeOption at h
      by_cases hc : CTR_THRESHOLD ≤ t.amount
      · exact hc
      · rw [if_neg hc] at h
        cases h
    · exact absurd ((type_of_check_structuring h).symm.trans hty) (by decide)
    · exact absurd ((type_of_check_velocity h).symm.trans hty) (by decide)
    · exact absurd ((type_of_check_round h).symm.trans hty) (by decide)
    · exact absurd ((type_of_check_jurisdiction h).symm.trans hty) (by decide)
  have hstruct : check_structuring (historyRecord s.transaction_history t) t = none := by
    rw [check_structuring_eq]
    refine if_neg (fun hc => ?_)
    have := hc.2.2 t (self_mem_structuringWindow s.transaction_history t)
    omega
  intro a ha
  rw [monitor_result_eq] at ha
  simp only [List.mem_append, Option.mem_toList, Option.mem_def] at ha
  rcases ha with ((((h | h) | h) | h) | h)
  · rw [type_of_largeOption h]
    decide
  · rw [hstruct] at h
    cases h
  · rw [type_of_check_velocity h]
    decide
  · rw [type_of_check_round h]
    decide
  · rw [type_of_check_jurisdiction h]
    decide

/-- C9 witness: monitoring a transaction at exactly the CTR threshold
returns its large-transaction alert, and that returned alert is not a
structuring alert. -/
theorem c9_no_large_and_structuring_witness :
    (largeAlert tCtrEq).alert_type ≠ AlertType.STRUCTURING :=
  c9_no_large_and_structuring initialState tCtrEq (by decide)
    (largeAlert tCtrEq) (by decide)

/-- C10: a `monitor` call for a transaction of account A appends exactly that
transaction to A's history, leaves every other account's history unchanged,
and appends exactly the returned alerts to the alert sink. -/
theorem c10_frame (s : MonitorState) (t : Transaction) :
    (∀ uid, historyGet (monitor_transaction s t).1.transaction_history uid =
        if uid = t.user_id then historyGet s.transaction_history uid ++ [t]
        else historyGet s.transaction_history uid)
    ∧ (monitor_transaction s t).1.alerts = s.alerts ++ (monitor_transaction s t).2 :=
  ⟨fun uid => historyGet_record s.transaction_history t uid, rfl⟩

end CryptoBeam
